import Mathlib

/-!
Shallow embedding of the BGH Smart Solidmation client
(`custom_components/bgh_smart/solidmation.py`, tables also from
`custom_components/bgh_smart/climate.py`).

Modelling conventions:
* Python `None` is `Option.none` / `PyVal.none`; Python numeric values
  (both `int` and `float`) are modelled as `Rat` (the protocol only uses
  decimal literals, for which rational arithmetic is exact).
* Python exceptions are modelled with `Except` / explicit error fields.
* `float(s)` / `int(s)` on the protocol's decimal strings are modelled by
  `pyFloat` / `pyInt`; exotic forms (exponents, inf/nan, surrounding
  whitespace) do not occur in the protocol and are out of the model
  (they are parse failures here, i.e. `ValueError`).
-/

deriving instance DecidableEq for Except

namespace BGH

/-- Python exceptions that the decoding code can raise. -/
inductive PyError where
  | valueError
  | indexError
  | keyError
  | typeError
deriving DecidableEq, Repr

/-- A Python value as it can appear in the decoded state record:
`None`, a leftover string (Python truthiness leaves the falsy string
`""` unconverted), or a number (`int` and `float` collapsed to `Rat`). -/
inductive PyVal where
  | none
  | str (s : String)
  | num (q : Rat)
deriving DecidableEq, Repr

/-- Value of a decimal digit character. -/
def charDigit (c : Char) : Option Nat :=
  if c.isDigit then some (c.toNat - 48) else Option.none

/-- Read a digit string as a natural number; `none` when a non-digit
occurs.  The empty list yields `some 0` (callers guard emptiness). -/
def digitsToNat (cs : List Char) : Option Nat :=
  cs.foldl
    (fun acc c =>
      match acc, charDigit c with
      | some n, some d => some (n * 10 + d)
      | _, _ => Option.none)
    (some 0)

/-- Unsigned part of Python `float(s)`: digits with an optional single
dot, at least one digit somewhere. -/
def pyFloatCore (cs : List Char) : Option Rat :=
  let intPart := cs.takeWhile (fun c => c ≠ '.')
  let rest := cs.dropWhile (fun c => c ≠ '.')
  match rest with
  | [] =>
    if intPart.isEmpty then Option.none
    else (digitsToNat intPart).map (fun n => (n : Rat))
  | _ :: frac =>
    if frac.any (fun c => c = '.') then Option.none
    else if intPart.isEmpty && frac.isEmpty then Option.none
    else
      match digitsToNat intPart, digitsToNat frac with
      | some i, some f => some ((i : Rat) + (f : Rat) / ((10 : Rat) ^ frac.length))
      | _, _ => Option.none

/-- Python `float(s)` on the protocol's decimal strings. -/
def pyFloat (s : String) : Option Rat :=
  match s.toList with
  | [] => Option.none
  | '-' :: rest => (pyFloatCore rest).map (fun q => -q)
  | '+' :: rest => pyFloatCore rest
  | cs => pyFloatCore cs

/-- Python `int(s)` on decimal integer strings (no dot allowed). -/
def pyInt (s : String) : Option Int :=
  match s.toList with
  | [] => Option.none
  | '-' :: rest =>
    if rest.isEmpty then Option.none
    else if rest.all Char.isDigit then (digitsToNat rest).map (fun n => -(n : Int))
    else Option.none
  | '+' :: rest =>
    if rest.isEmpty then Option.none
    else if rest.all Char.isDigit then (digitsToNat rest).map (fun n => (n : Int))
    else Option.none
  | cs =>
    if cs.all Char.isDigit then (digitsToNat cs).map (fun n => (n : Int))
    else Option.none

/-! Constant tables of `solidmation.py` (name → numeric code), modelled as
partial maps: `Option.none` is a missing dict key (Python `KeyError` on
`[]`-lookup, `None` on `.get`). -/

/-- `FAN_MODE` dict of `solidmation.py`. -/
def FAN_MODE : String → Option Nat
  | "low" => some 1
  | "medium" => some 2
  | "high" => some 3
  | "auto" => some 254
  | "no_change" => some 255
  | _ => Option.none

/-- `MODE` dict of `solidmation.py`. -/
def MODE : String → Option Nat
  | "off" => some 0
  | "cool" => some 1
  | "heat" => some 2
  | "dry" => some 3
  | "fan_only" => some 4
  | "auto" => some 254
  | "no_change" => some 255
  | _ => Option.none

/-- `SWING_MODE` dict of `solidmation.py`. -/
def SWING_MODE : String → Option Nat
  | "off" => some 0
  | "on" => some 0x51
  | "horizontal" => some 0x51
  | "vertical" => some 0x61
  | _ => Option.none

/-- `PRESET_MODE` dict of `solidmation.py`. -/
def PRESET_MODE : String → Option Nat
  | "none" => some 0
  | "boost" => some 0x71
  | _ => Option.none

/-- `MAP_MODE_ID` dict of `climate.py` (code → Home Assistant `HVACMode`;
the `HVACMode` members are string-valued: `"off"`, `"cool"`, `"heat"`,
`"dry"`, `"fan_only"`, `"auto"`). -/
def MAP_MODE_ID : Nat → Option String
  | 0 => some "off"
  | 1 => some "cool"
  | 2 => some "heat"
  | 3 => some "dry"
  | 4 => some "fan_only"
  | 254 => some "auto"
  | _ => Option.none

/-- One telemetry element (`{'ValueType': …, 'Value': …}`). -/
structure RawValue where
  ValueType : Nat
  Value : String
deriving DecidableEq, Repr

/-- `SolidmationClient._find_value` with the default `value_name =
'ValueType'`: first item whose `ValueType` equals `v`; `None` (logged,
not raised) when no item matches. -/
def find_value (data : List RawValue) (v : Nat) : Option String :=
  (data.find? (fun item => item.ValueType = v)).map (fun item => item.Value)

/-- One entry of an endpoint's `Parameters` list (`{'Name': …, 'Value': …}`). -/
structure Param where
  Name : String
  Value : String
deriving DecidableEq, Repr

/-- `SolidmationClient._find_value` with `value_name = 'Name'`, as used on
the `Parameters` list. -/
def find_value_by_name (data : List Param) (v : String) : Option String :=
  (data.find? (fun item => item.Name = v)).map (fun item => item.Value)

/-- The `temperature` computation of `_parse_raw_data`: look up value type
13; when truthy, parse as float and floor the `≤ -50` sentinel to `None`. -/
def tempField (data : List RawValue) : Except PyError PyVal :=
  match find_value data 13 with
  | Option.none => .ok .none
  | some s =>
    if s = "" then .ok (.str "")
    else
      match pyFloat s with
      | Option.none => .error .valueError
      | some q => .ok (if q ≤ -50 then .none else .num q)

/-- The `target_temperature` computation of `_parse_raw_data`: look up
value type 20; when truthy, parse as float and replace the sentinel 255
by the fixed default 20. -/
def targetTempField (data : List RawValue) : Except PyError PyVal :=
  match find_value data 20 with
  | Option.none => .ok .none
  | some s =>
    if s = "" then .ok (.str "")
    else
      match pyFloat s with
      | Option.none => .error .valueError
      | some q => .ok (if q = 255 then .num 20 else .num q)

/-- The `fan_speed` / `mode_id` / `swing_mode` computations of
`_parse_raw_data`: look up value type `vt`; when truthy, parse as int. -/
def intField (data : List RawValue) (vt : Nat) : Except PyError PyVal :=
  match find_value data vt with
  | Option.none => .ok .none
  | some s =>
    if s = "" then .ok (.str "")
    else
      match pyInt s with
      | Option.none => .error .valueError
      | some n => .ok (.num (n : Rat))

/-- The normalized state record returned by `_parse_raw_data`. -/
structure ParsedRecord where
  temperature : PyVal
  target_temperature : PyVal
  fan_speed : PyVal
  mode_id : PyVal
  swing_mode : PyVal
deriving DecidableEq, Repr

/-- Result of `_parse_raw_data`: the empty dict `{}` when the raw array is
`None`, otherwise the five-key state record. -/
inductive ParsedData where
  | emptyDict
  | record (r : ParsedRecord)
deriving DecidableEq, Repr

/-- `SolidmationClient._parse_raw_data`: `{}` when the raw array is null,
otherwise the five field computations in source order (the first raising
one aborts the decode). -/
def parse_raw_data (data : Option (List RawValue)) : Except PyError ParsedData :=
  match data with
  | Option.none => .ok .emptyDict
  | some d =>
    match tempField d with
    | .error e => .error e
    | .ok temperature =>
      match targetTempField d with
      | .error e => .error e
      | .ok target_temperature =>
        match intField d 15 with
        | .error e => .error e
        | .ok fan_speed =>
          match intField d 14 with
          | .error e => .error e
          | .ok mode_id =>
            match intField d 18 with
            | .error e => .error e
            | .ok swing_mode =>
              .ok (.record ⟨temperature, target_temperature, fan_speed,
                mode_id, swing_mode⟩)

/-- One element of the packet's `Endpoints` array (the keys the decoder
reads). -/
structure Endpoint where
  EndpointID : Nat
  Description : String
  Parameters : List Param
deriving DecidableEq, Repr

/-- One element of the packet's `Devices` array (the keys the decoder
reads). -/
structure DeviceData where
  DeviceModel : String
  Address : String
  IsOnline : Bool
deriving DecidableEq, Repr

/-- One element of the packet's `EndpointValues` array; `Values` is null
when the device is unreachable. -/
structure EndpointValue where
  Values : Option (List RawValue)
deriving DecidableEq, Repr

/-- The `GetDataPacketResult` fields read by `_parse_devices`.  The JSON
`Endpoints` field can be null (checked explicitly by the code); `Devices`
and `EndpointValues` are indexed positionally. -/
structure RawPacketData where
  Endpoints : Option (List Endpoint)
  Devices : List DeviceData
  EndpointValues : List EndpointValue
deriving DecidableEq, Repr

/-- One decoded device.  In Python, `device_model`, `device_serial_number`,
`available`, `max_temp` and `min_temp` are keys added to the `data` dict
after `_parse_raw_data`; they are modelled as sibling fields here. -/
structure Device where
  device_id : Nat
  device_name : String
  device_data : DeviceData
  raw_data : Option (List RawValue)
  data : ParsedData
  device_model : String
  device_serial_number : String
  available : Bool
  max_temp : Rat
  min_temp : Rat
  endpoints_data : Endpoint
deriving DecidableEq, Repr

/-- Python dict insert (`devices[key] = value`): replace an existing key
in place, else append. -/
def dictInsert (m : List (Nat × Device)) (k : Nat) (v : Device) :
    List (Nat × Device) :=
  match m with
  | [] => [(k, v)]
  | (k₁, v₁) :: rest =>
    if k₁ = k then (k, v) :: rest else (k₁, v₁) :: dictInsert rest k v

/-- `float(max_temp) if max_temp else 30`: a truthy parameter string is
parsed as float (`ValueError` on garbage), a falsy one (`None` or the
empty string) falls back to the default. -/
def setpointOrDefault (p : Option String) (dflt : Rat) : Except PyError Rat :=
  match p with
  | Option.none => .ok dflt
  | some s =>
    if s = "" then .ok dflt
    else
      match pyFloat s with
      | Option.none => .error .valueError
      | some q => .ok q

/-- The loop body of `_parse_devices`, iterating `enumerate(Endpoints)`.
At index `idx` the code reads `Devices[idx]` then `EndpointValues[idx]`
(Python `IndexError` past the end), parses the raw values, and looks up
the setpoint bounds; errors abort the whole decode. -/
def parseDevicesLoop (devs : List DeviceData) (vals : List EndpointValue) :
    List Endpoint → Nat → List (Nat × Device) →
    Except PyError (List (Nat × Device))
  | [], _, acc => .ok acc
  | e :: rest, idx, acc =>
    match devs.get? idx with
    | Option.none => .error .indexError
    | some dd =>
      match vals.get? idx with
      | Option.none => .error .indexError
      | some ev =>
        match parse_raw_data ev.Values with
        | .error err => .error err
        | .ok pdata =>
          match setpointOrDefault (find_value_by_name e.Parameters "SetpointMaxC") 30 with
          | .error err => .error err
          | .ok maxT =>
            match setpointOrDefault (find_value_by_name e.Parameters "SetpointMinC") 17 with
            | .error err => .error err
            | .ok minT =>
              let device : Device :=
                { device_id := e.EndpointID
                  device_name := e.Description
                  device_data := dd
                  raw_data := ev.Values
                  data := pdata
                  device_model := dd.DeviceModel
                  device_serial_number := dd.Address
                  available := dd.IsOnline
                  max_temp := maxT
                  min_temp := minT
                  endpoints_data := e }
              parseDevicesLoop devs vals rest (idx + 1)
                (dictInsert acc e.EndpointID device)

/-- `SolidmationClient._parse_devices`: empty dict when `Endpoints` is
null, otherwise the positional decode loop. -/
def parse_devices (data : RawPacketData) : Except PyError (List (Nat × Device)) :=
  match data.Endpoints with
  | Option.none => .ok []
  | some endpoints => parseDevicesLoop data.Devices data.EndpointValues endpoints 0 []

/-- `Except.isOk` as a plain boolean (whether the Python call returned
normally rather than raising). -/
def exceptOk {ε α : Type} (e : Except ε α) : Bool :=
  match e with
  | .ok _ => true
  | .error _ => false

/-! Session manager (`_post`, `async_login`, `_async_request`). -/

/-- What the transport layer produced for one POST: an HTTP response, one
of the three aiohttp connection failures caught by `_post`, or a timeout
(Python `TimeoutError`, which is not in the caught tuple).  For the login
endpoint, `body` stands for the JSON `d` field of the reply. -/
inductive TransportOutcome where
  | response (status : Nat) (body : String)
  | connectorError (msg : String)
  | osError (msg : String)
  | disconnected (msg : String)
  | timeout (msg : String)
deriving DecidableEq, Repr

/-- The client-level exceptions of `solidmation.py` that the session code
can raise (names as in the source). -/
inductive ClientError where
  | badRequestException (body : String)
  | unsupportedHostException (body : String)
  | unknownException (body : String)
  | connectionError (msg : String)
  | timeoutError (msg : String)
  | authenticationException
  | invalidSessionException
  | loginTimeoutException (msg : String)
deriving DecidableEq, Repr

/-- `SolidmationClient._post`: status 400 raises `BadRequestException`
with the body, 404 raises `UnsupportedHostException`, anything other
than exactly 200 raises `UnknownException`; the three caught aiohttp
errors become `ConnectionError`; a `TimeoutError` is not caught and
propagates. -/
def post (o : TransportOutcome) : Except ClientError (Nat × String) :=
  match o with
  | .response status body =>
    if status = 400 then .error (.badRequestException body)
    else if status = 404 then .error (.unsupportedHostException body)
    else if status ≠ 200 then .error (.unknownException body)
    else .ok (status, body)
  | .connectorError msg => .error (.connectionError msg)
  | .osError msg => .error (.connectionError msg)
  | .disconnected msg => .error (.connectionError msg)
  | .timeout msg => .error (.timeoutError msg)

/-- Mutable client state: the cached token.  Python `self.token = None` is
`Option.none`; note the empty string `some ""` is a distinct state. -/
structure ClientState where
  token : Option String
deriving DecidableEq, Repr

/-- `SolidmationClient.async_login`: POST the credentials, store the `d`
field as the token, raise `AuthenticationException` when it is empty
(after storing it), and turn a `TimeoutError` from the request into
`LoginTimeoutException`. -/
def async_login (loginResp : TransportOutcome) (s : ClientState) :
    ClientState × Except ClientError Unit :=
  match post loginResp with
  | .error (.timeoutError m) => (s, .error (.loginTimeoutException m))
  | .error e => (s, .error e)
  | .ok (_, d) =>
    let s₁ : ClientState := { token := some d }
    if d = "" then (s₁, .error .authenticationException) else (s₁, .ok ())

/-- Observable outcome of one `_async_request` call: final client state,
how many login POSTs and how many authenticated POSTs were issued, and
the result (response body or raised exception). -/
structure RequestTrace where
  state : ClientState
  loginAttempts : Nat
  postAttempts : Nat
  result : Except ClientError String
deriving DecidableEq, Repr

/-- `SolidmationClient._async_request`: log in only when the cached token
is `None`; raise `InvalidSessionException` when the token is the empty
string; otherwise issue the single authenticated POST, propagating
whatever `_post` raises (no retry, no token invalidation). -/
def async_request (loginResp reqResp : TransportOutcome) (s : ClientState) :
    RequestTrace :=
  if s.token = Option.none then
    match async_login loginResp s with
    | (s₁, .error e) => ⟨s₁, 1, 0, .error e⟩
    | (s₁, .ok ()) =>
      if s₁.token = some "" then ⟨s₁, 1, 0, .error .invalidSessionException⟩
      else
        match post reqResp with
        | .error e => ⟨s₁, 1, 1, .error e⟩
        | .ok (_, body) => ⟨s₁, 1, 1, .ok body⟩
  else
    if s.token = some "" then ⟨s, 0, 0, .error .invalidSessionException⟩
    else
      match post reqResp with
      | .error e => ⟨s, 0, 1, .error e⟩
      | .ok (_, body) => ⟨s, 0, 1, .ok body⟩

/-! Command encoder (`async_set_mode`). -/

/-- One write issued by the command encoder: the `HVACSetModes` body
(`desiredTempC` is stringified in Python; the numeric value is kept
here) or the `HVACSendCommand` body. -/
inductive Write where
  | setModes (endpointID : Nat) (desiredTempC : Rat) (fanMode : Nat)
      (flags : Nat) (mode : Nat)
  | sendCommand (endpointID : Nat) (subCommand : Nat)
deriving DecidableEq, Repr

/-- Observable outcome of `async_set_mode`: the writes issued, in order,
and the exception raised (if any) after those writes. -/
structure SetModeTrace where
  writes : List Write
  error : Option PyError
deriving DecidableEq, Repr

/-- `SolidmationClient.async_set_mode`: build the mode config
(`KeyError` on an unknown fan or mode name, before any write), send it to
`HVACSetModes`; then, unless `preset_mode == 'none'` and
`swing_mode == 'off'`, send `PRESET_MODE.get(preset_mode) |
SWING_MODE.get(swing_mode)` to `HVACSendCommand` (`.get` returns `None`
for an unknown name, so the bitwise or raises `TypeError` then). -/
def async_set_mode (device_id : Nat) (mode : String) (temp : Rat)
    (fan swing_mode preset_mode : String) : SetModeTrace :=
  match FAN_MODE fan, MODE mode with
  | some f, some m =>
    let w₁ := Write.setModes device_id temp f 255 m
    if preset_mode ≠ "none" ∨ swing_mode ≠ "off" then
      match PRESET_MODE preset_mode, SWING_MODE swing_mode with
      | some p, some sw =>
        ⟨[w₁, Write.sendCommand device_id (Nat.lor p sw)], Option.none⟩
      | _, _ => ⟨[w₁], some .typeError⟩
    else ⟨[w₁], Option.none⟩
  | _, _ => ⟨[], some .keyError⟩

/-! Helper lemmas. -/

/-- `float('')` raises in Python; in the model the parse yields `none`. -/
lemma pyFloat_empty : pyFloat "" = Option.none := rfl

/-- Inversion of a successful `_parse_raw_data`: each field of the
returned record is exactly what its field computation produced. -/
lemma parse_raw_data_ok_record (d : List RawValue) (r : ParsedRecord)
    (h : parse_raw_data (some d) = Except.ok (ParsedData.record r)) :
    tempField d = .ok r.temperature ∧
    targetTempField d = .ok r.target_temperature ∧
    intField d 15 = .ok r.fan_speed ∧
    intField d 14 = .ok r.mode_id ∧
    intField d 18 = .ok r.swing_mode := by
  simp only [parse_raw_data] at h
  split at h
  · exact Except.noConfusion h
  · rename_i temperature h₁
    split at h
    · exact Except.noConfusion h
    · rename_i target h₂
      split at h
      · exact Except.noConfusion h
      · rename_i fan h₃
        split at h
        · exact Except.noConfusion h
        · rename_i modeId h₄
          split at h
          · exact Except.noConfusion h
          · rename_i swing h₅
            injection h with h₆
            injection h₆ with h₇
            rw [← h₇]
            exact ⟨h₁, h₂, h₃, h₄, h₅⟩

/-- `_find_value` returns `None` when no element carries the requested
value type. -/
lemma find_value_eq_none (d : List RawValue) (v : Nat)
    (h : ∀ item ∈ d, item.ValueType ≠ v) : find_value d v = Option.none := by
  unfold find_value
  have hf : d.find? (fun item => item.ValueType = v) = Option.none := by
    apply List.find?_eq_none.mpr
    intro x hx
    simpa using h x hx
  rw [hf]
  rfl

/-- A found value-type-13 string parsing to a float at or below -50 makes
the temperature field `None`. -/
lemma tempField_sentinel (d : List RawValue) (s : String) (q : Rat)
    (hf : find_value d 13 = some s) (hp : pyFloat s = some q)
    (hq : q ≤ -50) : tempField d = .ok PyVal.none := by
  have hs : s ≠ "" := by
    intro h
    rw [h, pyFloat_empty] at hp
    cases hp
  simp [tempField, hf, hs, hp, hq]

/-- A found value-type-20 string parsing to 255 makes the target
temperature field the fixed default 20. -/
lemma targetTempField_sentinel (d : List RawValue) (s : String)
    (hf : find_value d 20 = some s) (hp : pyFloat s = some 255) :
    targetTempField d = .ok (PyVal.num 20) := by
  have hs : s ≠ "" := by
    intro h
    rw [h, pyFloat_empty] at hp
    cases hp
  simp [targetTempField, hf, hs, hp]

/-- No value-type-20 entry leaves the target temperature field `None`. -/
lemma targetTempField_missing (d : List RawValue)
    (hf : find_value d 20 = Option.none) :
    targetTempField d = .ok PyVal.none := by
  simp [targetTempField, hf]

/-- The positional decode loop cannot return normally when `Devices` or
`EndpointValues` runs out before the remaining endpoints do. -/
lemma parseDevicesLoop_short_error (devs : List DeviceData)
    (vals : List EndpointValue) :
    ∀ (eps : List Endpoint) (idx : Nat) (acc : List (Nat × Device)),
      ((devs.length < idx + eps.length ∧ idx ≤ devs.length) ∨
       (vals.length < idx + eps.length ∧ idx ≤ vals.length)) →
      exceptOk (parseDevicesLoop devs vals eps idx acc) = false := by
  intro eps
  induction eps with
  | nil =>
    intro idx acc h
    rcases h with ⟨h₁, h₂⟩ | ⟨h₁, h₂⟩ <;> simp at h₁ <;> omega
  | cons e rest ih =>
    intro idx acc h
    simp only [parseDevicesLoop]
    split
    · rfl
    · rename_i dd hdev
      have hdl : idx < devs.length := by
        rcases Nat.lt_or_ge idx devs.length with hlt | hge
        · exact hlt
        · rw [List.get?_eq_none.mpr hge] at hdev; cases hdev
      split
      · rfl
      · rename_i ev hval
        have hvl : idx < vals.length := by
          rcases Nat.lt_or_ge idx vals.length with hlt | hge
          · exact hlt
          · rw [List.get?_eq_none.mpr hge] at hval; cases hval
        split
        · rfl
        · split
          · rfl
          · split
            · rfl
            · apply ih
              rcases h with ⟨h₁, _⟩ | ⟨h₁, _⟩
              · refine Or.inl ⟨?_, ?_⟩ <;>
                  (simp only [List.length_cons] at h₁; omega)
              · refine Or.inr ⟨?_, ?_⟩ <;>
                  (simp only [List.length_cons] at h₁; omega)

/-! Claim theorems. -/

/-- A packet with arrays of unequal length on which the decode nonetheless
succeeds: one endpoint but two devices and two endpoint values. -/
def truncPacket : RawPacketData :=
  ⟨some [⟨1, "AC", []⟩], [⟨"BGH", "a", true⟩, ⟨"X", "b", false⟩],
    [⟨some []⟩, ⟨some []⟩]⟩

/-- C1 (counterexample): the claim says every packet whose `Endpoints`,
`Devices` and `EndpointValues` arrays have unequal lengths fails to
decode with a dedicated `ProtocolDecodeError`.  On this packet the three
lengths are 1, 2 and 2, yet `_parse_devices` returns normally, silently
ignoring the extra entries — and no `ProtocolDecodeError` exists in the
code at all. -/
theorem parse_devices_unequal_counterexample :
    (truncPacket.Endpoints.map List.length) = some 1 ∧
    truncPacket.Devices.length = 2 ∧
    truncPacket.EndpointValues.length = 2 ∧
    exceptOk (parse_devices truncPacket) = true := ⟨rfl, rfl, rfl, rfl⟩

/-- C1 (amended): when `Devices` or `EndpointValues` is shorter than
`Endpoints`, the positional decode cannot return normally (with
well-formed values it raises `IndexError` at the missing index; there is
no dedicated protocol error); when they are longer than `Endpoints`, the
extra entries are silently ignored and decoding succeeds. -/
theorem parse_devices_short_arrays_error (packet : RawPacketData)
    (endpoints : List Endpoint) (he : packet.Endpoints = some endpoints)
    (hlt : packet.Devices.length < endpoints.length ∨
      packet.EndpointValues.length < endpoints.length) :
    exceptOk (parse_devices packet) = false := by
  unfold parse_devices
  rw [he]
  apply parseDevicesLoop_short_error
  rcases hlt with h | h
  · exact Or.inl ⟨by omega, by omega⟩
  · exact Or.inr ⟨by omega, by omega⟩

/-- C1 (witness for the amended claim): a packet with one endpoint and
empty `Devices`/`EndpointValues` arrays does not decode normally. -/
theorem parse_devices_short_arrays_error_witness :
    exceptOk (parse_devices ⟨some [⟨1, "AC", []⟩], [], []⟩) = false :=
  parse_devices_short_arrays_error ⟨some [⟨1, "AC", []⟩], [], []⟩
    [⟨1, "AC", []⟩] rfl (Or.inl (by decide))

/-- C2 (counterexample): the claim says that on an unauthorized server
signal the client invalidates its cached token and retries once after
re-login.  With a cached token `"tok"` and the server answering the
authenticated request with status 401, `_async_request` performs no login
at all, issues exactly one POST, keeps the token cached, and surfaces the
`UnknownException` directly. -/
theorem async_request_unauthorized_counterexample :
    async_request (.response 200 "fresh") (.response 401 "unauthorized")
      ⟨some "tok"⟩ =
      ⟨⟨some "tok"⟩, 0, 1, .error (.unknownException "unauthorized")⟩ := rfl

/-- C2 (amended): with a non-empty cached token, `_async_request` never
re-logs in and never retries: it issues exactly one POST, leaves the
cached token unchanged, and propagates whatever error `_post` raises
(including an unauthorized server signal) to the caller. -/
theorem async_request_no_retry (loginResp reqResp : TransportOutcome)
    (t : String) (ht : t ≠ "") :
    (async_request loginResp reqResp ⟨some t⟩).loginAttempts = 0 ∧
    (async_request loginResp reqResp ⟨some t⟩).postAttempts = 1 ∧
    (async_request loginResp reqResp ⟨some t⟩).state.token = some t ∧
    ∀ e : ClientError, post reqResp = .error e →
      (async_request loginResp reqResp ⟨some t⟩).result = .error e := by
  cases hp : post reqResp with
  | error e =>
    have hreq : async_request loginResp reqResp ⟨some t⟩ =
        ⟨⟨some t⟩, 0, 1, .error e⟩ := by
      simp [async_request, ht, hp]
    rw [hreq]
    refine ⟨rfl, rfl, rfl, fun f hf => ?_⟩
    injection hf with h
    rw [h]
  | ok v =>
    obtain ⟨st, body⟩ := v
    have hreq : async_request loginResp reqResp ⟨some t⟩ =
        ⟨⟨some t⟩, 0, 1, .ok body⟩ := by
      simp [async_request, ht, hp]
    rw [hreq]
    refine ⟨rfl, rfl, rfl, fun f hf => ?_⟩
    exact Except.noConfusion hf

/-- C2 (witness for the amended claim): the amended behaviour at the
concrete unauthorized-response input. -/
theorem async_request_no_retry_witness :
    (async_request (.response 200 "fresh") (.response 401 "unauthorized")
      ⟨some "tok"⟩).loginAttempts = 0 ∧
    (async_request (.response 200 "fresh") (.response 401 "unauthorized")
      ⟨some "tok"⟩).postAttempts = 1 ∧
    (async_request (.response 200 "fresh") (.response 401 "unauthorized")
      ⟨some "tok"⟩).state.token = some "tok" ∧
    (async_request (.response 200 "fresh") (.response 401 "unauthorized")
      ⟨some "tok"⟩).result = .error (.unknownException "unauthorized") := by
  have h := async_request_no_retry (.response 200 "fresh")
    (.response 401 "unauthorized") "tok" (by decide)
  exact ⟨h.1, h.2.1, h.2.2.1, h.2.2.2 (.unknownException "unauthorized") rfl⟩

/-- C3: with valid mode/fan/swing/preset names, `async_set_mode` issues
exactly one write (the `HVACSetModes` body with mode, temperature and
fan) when `swing_mode = 'off'` and `preset_mode = 'none'`, and exactly
two writes otherwise, the second being the `HVACSendCommand` body
carrying `preset_code | swing_code`. -/
theorem async_set_mode_write_count (did : Nat) (mode : String) (temp : Rat)
    (fan swing preset : String) (m f sw p : Nat)
    (hm : MODE mode = some m) (hf : FAN_MODE fan = some f)
    (hsw : SWING_MODE swing = some sw) (hp : PRESET_MODE preset = some p) :
    (swing = "off" ∧ preset = "none" →
      async_set_mode did mode temp fan swing preset =
        ⟨[.setModes did temp f 255 m], Option.none⟩) ∧
    (¬(swing = "off" ∧ preset = "none") →
      async_set_mode did mode temp fan swing preset =
        ⟨[.setModes did temp f 255 m,
          .sendCommand did (Nat.lor p sw)], Option.none⟩) := by
  constructor
  · rintro ⟨h₁, h₂⟩
    simp [async_set_mode, hf, hm, h₁, h₂]
  · intro h
    have hcond : preset ≠ "none" ∨ swing ≠ "off" := by
      by_cases h₁ : swing = "off"
      · by_cases h₂ : preset = "none"
        · exact absurd ⟨h₁, h₂⟩ h
        · exact Or.inl h₂
      · exact Or.inr h₁
    simp [async_set_mode, hf, hm, hsw, hp, hcond]

/-- C3 (witness): `swing='horizontal', preset='none'` issues the two
writes, the second carrying `0 | 0x51 = 81`. -/
theorem async_set_mode_write_count_witness :
    async_set_mode 7 "cool" 24 "auto" "horizontal" "none" =
      ⟨[.setModes 7 24 254 255 1, .sendCommand 7 81], Option.none⟩ := by
  have h := async_set_mode_write_count 7 "cool" 24 "auto" "horizontal" "none"
    1 254 81 0 rfl rfl rfl rfl
  simpa using h.2 (by simp)

/-- C4 (counterexample): the claim says every 2xx response succeeds and a
transport timeout raises `ConnectionError`.  But `_post` accepts only
status exactly 200 — status 201 raises `UnknownException` — and a
timeout propagates as `TimeoutError`, not `ConnectionError`. -/
theorem post_status_counterexample :
    post (.response 201 "created") = .error (.unknownException "created") ∧
    post (.timeout "t") = .error (.timeoutError "t") := ⟨rfl, rfl⟩

/-- C4 (amended): status 400 raises `BadRequestException` carrying the
body, 404 raises `UnsupportedHostException`, any status other than
exactly 200 (including other 2xx codes) raises `UnknownException`, and
only status 200 succeeds; the three caught transport failures raise
`ConnectionError`, while a timeout propagates as `TimeoutError`. -/
theorem post_status_spec (status : Nat) (body msg : String) :
    (status = 400 →
      post (.response status body) = .error (.badRequestException body)) ∧
    (status = 404 →
      post (.response status body) = .error (.unsupportedHostException body)) ∧
    (status ≠ 400 → status ≠ 404 → status ≠ 200 →
      post (.response status body) = .error (.unknownException body)) ∧
    post (.response 200 body) = .ok (200, body) ∧
    post (.connectorError msg) = .error (.connectionError msg) ∧
    post (.osError msg) = .error (.connectionError msg) ∧
    post (.disconnected msg) = .error (.connectionError msg) ∧
    post (.timeout msg) = .error (.timeoutError msg) := by
  refine ⟨?_, ?_, ?_, rfl, rfl, rfl, rfl, rfl⟩
  · rintro rfl; rfl
  · rintro rfl; rfl
  · intro h₁ h₂ h₃
    simp [post, h₁, h₂, h₃]

/-- C4 (witness for the amended claim): status 503 raises
`UnknownException` with the body. -/
theorem post_status_spec_witness :
    post (.response 503 "oops") = .error (.unknownException "oops") :=
  (post_status_spec 503 "oops" "m").2.2.1 (by decide) (by decide) (by decide)

/-- C5: the mode tables round-trip: for each code in {0,1,2,3,4,254},
decoding with `MAP_MODE_ID` and re-encoding with `MODE` returns the code,
and for each name in {off, cool, heat, dry, fan_only, auto}, encoding
with `MODE` and decoding with `MAP_MODE_ID` returns the name. -/
theorem mode_code_roundtrip :
    (MAP_MODE_ID 0).bind MODE = some 0 ∧
    (MAP_MODE_ID 1).bind MODE = some 1 ∧
    (MAP_MODE_ID 2).bind MODE = some 2 ∧
    (MAP_MODE_ID 3).bind MODE = some 3 ∧
    (MAP_MODE_ID 4).bind MODE = some 4 ∧
    (MAP_MODE_ID 254).bind MODE = some 254 ∧
    (MODE "off").bind MAP_MODE_ID = some "off" ∧
    (MODE "cool").bind MAP_MODE_ID = some "cool" ∧
    (MODE "heat").bind MAP_MODE_ID = some "heat" ∧
    (MODE "dry").bind MAP_MODE_ID = some "dry" ∧
    (MODE "fan_only").bind MAP_MODE_ID = some "fan_only" ∧
    (MODE "auto").bind MAP_MODE_ID = some "auto" := by decide

/-- C6: a telemetry array whose first value-type-13 entry parses to a
float at or below -50 decodes to `temperature = None`, not the numeric
reading. -/
theorem temperature_sentinel_unknown (d : List RawValue) (s : String)
    (q : Rat) (r : ParsedRecord) (hf : find_value d 13 = some s)
    (hp : pyFloat s = some q) (hq : q ≤ -50)
    (hr : parse_raw_data (some d) = .ok (.record r)) :
    r.temperature = PyVal.none := by
  have h₁ := (parse_raw_data_ok_record d r hr).1
  have h₂ := tempField_sentinel d s q hf hp hq
  injection h₂.symm.trans h₁ with h₃
  exact h₃.symm

/-- C6 (witness): raw value `-55` at value type 13. -/
theorem temperature_sentinel_unknown_witness :
    parse_raw_data (some [⟨13, "-55"⟩]) =
      .ok (.record ⟨.none, .none, .none, .none, .none⟩) ∧
    PyVal.none = PyVal.none :=
  ⟨by decide,
    temperature_sentinel_unknown [⟨13, "-55"⟩] "-55" (-55)
      ⟨.none, .none, .none, .none, .none⟩ (by decide) (by decide)
      (by decide) (by decide)⟩

/-- C7: a telemetry array whose first value-type-20 entry parses to 255
decodes to `target_temperature = 20`, the fixed fallback. -/
theorem target_temperature_sentinel_default (d : List RawValue)
    (s : String) (r : ParsedRecord) (hf : find_value d 20 = some s)
    (hp : pyFloat s = some 255)
    (hr : parse_raw_data (some d) = .ok (.record r)) :
    r.target_temperature = PyVal.num 20 := by
  have h₁ := (parse_raw_data_ok_record d r hr).2.1
  have h₂ := targetTempField_sentinel d s hf hp
  injection h₂.symm.trans h₁ with h₃
  exact h₃.symm

/-- C7 (witness): raw value `255` at value type 20. -/
theorem target_temperature_sentinel_default_witness :
    parse_raw_data (some [⟨20, "255"⟩]) =
      .ok (.record ⟨.none, .num 20, .none, .none, .none⟩) ∧
    PyVal.num 20 = PyVal.num 20 :=
  ⟨by decide,
    target_temperature_sentinel_default [⟨20, "255"⟩] "255"
      ⟨.none, .num 20, .none, .none, .none⟩ (by decide) (by decide)
      (by decide)⟩

/-- C8: a telemetry array with no value-type-20 entry makes the lookup
return `None` (not raise), and the decoded record has
`target_temperature = None` — never the number 0. -/
theorem missing_target_temperature_unknown (d : List RawValue)
    (h : ∀ item ∈ d, item.ValueType ≠ 20) :
    find_value d 20 = Option.none ∧
    ∀ r : ParsedRecord, parse_raw_data (some d) = .ok (.record r) →
      r.target_temperature = PyVal.none ∧
      r.target_temperature ≠ PyVal.num 0 := by
  have hf := find_value_eq_none d 20 h
  refine ⟨hf, fun r hr => ?_⟩
  have h₁ := (parse_raw_data_ok_record d r hr).2.1
  have h₂ := targetTempField_missing d hf
  injection h₂.symm.trans h₁ with h₃
  rw [← h₃]
  exact ⟨rfl, by intro hc; cases hc⟩

/-- C8 (witness): an array holding only a temperature entry. -/
theorem missing_target_temperature_unknown_witness :
    find_value [(⟨13, "25"⟩ : RawValue)] 20 = Option.none ∧
    parse_raw_data (some [⟨13, "25"⟩]) =
      .ok (.record ⟨.num 25, .none, .none, .none, .none⟩) ∧
    PyVal.none = PyVal.none :=
  ⟨(missing_target_temperature_unknown [⟨13, "25"⟩] (by decide)).1,
    by decide,
    ((missing_target_temperature_unknown [⟨13, "25"⟩] (by decide)).2
      ⟨.num 25, .none, .none, .none, .none⟩ (by decide)).1⟩

/-- C9: a packet whose `Endpoints` field is null decodes to the empty
device mapping without raising. -/
theorem endpoints_null_empty_devices (devs : List DeviceData)
    (vals : List EndpointValue) :
    parse_devices ⟨Option.none, devs, vals⟩ = .ok [] := rfl

/-- C10: a login whose server reply carries an empty `d` token stores
`''` as the token and raises `AuthenticationException`; from then on
every `_async_request` raises `InvalidSessionException` immediately —
zero login attempts and zero POSTs — because only a `None` token
triggers re-login. -/
theorem empty_token_invalid_session (s : ClientState)
    (loginResp reqResp : TransportOutcome) :
    (async_login (.response 200 "") s).2 = .error .authenticationException ∧
    (async_login (.response 200 "") s).1.token = some "" ∧
    async_request loginResp reqResp (async_login (.response 200 "") s).1 =
      ⟨⟨some ""⟩, 0, 0, .error .invalidSessionException⟩ := ⟨rfl, rfl, rfl⟩

end BGH
